import Mathlib

/-!
# Verification of the audio-extraction pipeline (`src/app.py`)

A shallow embedding of the core pipeline of `app.py`:

* `extract_audio_ffmpeg` (app.py lines 12-29): runs
  `ffmpeg -y -i <video> -vn -acodec pcm_s16le <wav>`, logging and re-raising
  `CalledProcessError` / `FileNotFoundError`.
* `convert_to_mp3_ffmpeg` (app.py lines 31-44): runs
  `ffmpeg -y -i <wav> -acodec libmp3lame -q:a 2 <mp3>`, logging and re-raising
  `CalledProcessError` (a `FileNotFoundError` is not caught there).
* `extract_audio_for_download` (app.py lines 48-82): decorated with
  `@st.cache_data`; creates a `tempfile.TemporaryDirectory`, writes the
  uploaded bytes to `os.path.join(temp_dir, original_filename)` *outside* the
  `try` block, then inside the `try` extracts, optionally converts to mp3,
  reads the final file and returns its bytes; `except Exception: return None`.

The embedding makes the effects explicit:

* the filesystem is an association list from `PathLoc` to byte lists, where a
  `PathLoc` is either a path inside the run's unique temporary directory
  (`PathLoc.temp rel`) or a path outside it (`PathLoc.outside abs`);
* `os.path.join(temp_dir, name)` followed by the operating system's path
  resolution at `open()` is `osPathJoinTemp`: Python's `os.path.join` returns
  `name` unchanged when `name` is absolute (starts with the path separator),
  so an absolute `name` lands outside the temporary directory, and a relative
  `name` is resolved component by component — `.` and empty components are
  dropped, `..` pops a component, and a `..` that climbs above the temporary
  directory escapes it. (Creation of intermediate subdirectories is not
  modelled: a multi-component name that stays inside the directory is treated
  as a plain name inside it.)
* the external world (`subprocess.run` on ffmpeg, write/read success) is an
  `Env` of oracles: what ffmpeg produces from given input bytes, whether the
  binary is on `PATH`, and whether the plain file writes/reads succeed;
* observable events (each ffmpeg invocation's full argument list, and each
  `st.error` log message) are collected in a trace;
* a Python exception escaping the function is `Except.error`, a normal return
  is `Except.ok` carrying `Option Bytes` (`none` is Python's `None`);
* `tempfile.TemporaryDirectory.__exit__` (recursive deletion of the directory
  on every exit path, exceptional or not) is `FS.cleanupTemp`, applied to the
  filesystem as the `with` block is left;
* `@st.cache_data` is `st_cache_data_run`: it memoizes the *returned* value of
  the function (including a returned `None`) keyed on the argument triple, and
  caches nothing when an exception escapes.
-/

/-- Byte buffers (file contents, uploaded video bytes). -/
abbrev Bytes := List Nat

/-- A filesystem path, classified by whether it lies inside the run's unique
temporary directory. -/
inductive PathLoc where
  | temp (rel : String)
  | outside (abs : String)
deriving DecidableEq, Repr

/-- Whether a filename is an absolute path (begins with the separator), the
condition under which Python's `os.path.join(temp_dir, name)` ignores
`temp_dir` and returns `name` unchanged. -/
def isAbsolutePath (name : String) : Bool :=
  match name.data with
  | [] => false
  | c :: _ => c = '/'

/-- Split a character sequence into its `/`-separated components. -/
def splitSlash : List Char → List Char → List (List Char)
  | [], acc => [acc.reverse]
  | '/' :: rest, acc => acc.reverse :: splitSlash rest []
  | c :: rest, acc => splitSlash rest (c :: acc)

/-- Resolve the components of a relative path against the root of the
temporary directory, as the operating system does when the joined path is
opened: empty and `.` components are dropped, `..` pops the last kept
component, and a `..` with nothing left to pop climbs above the temporary
directory — the path escapes it (`none`). -/
def resolveRelative : List (List Char) → List (List Char) → Option (List (List Char))
  | [], acc => some acc.reverse
  | c :: rest, acc =>
    if c = [] ∨ c = ['.'] then
      resolveRelative rest acc
    else if c = ['.', '.'] then
      match acc with
      | [] => none
      | _ :: acc2 => resolveRelative rest acc2
    else
      resolveRelative rest (c :: acc)

/-- Rejoin resolved path components with `/`. -/
def joinComps (l : List (List Char)) : List Char :=
  (l.intersperse ['/']).flatten

/-- `os.path.join(temp_dir, name)` for the run's temporary directory, as
resolved when the file is opened: an absolute `name` is returned unchanged by
`os.path.join` (hence lies outside the fresh unique temporary directory); a
relative `name` is joined under the directory and then resolved, so a `name`
whose `..` components climb out of the directory also lands outside it. -/
def osPathJoinTemp (name : String) : PathLoc :=
  if isAbsolutePath name then .outside name
  else
    match resolveRelative (splitSlash name.data []) [] with
    | some comps => .temp (String.mk (joinComps comps))
    | none => .outside name

/-- Whether the caller-supplied filename, joined under the temporary directory
and resolved, stays inside it: it is not absolute and does not climb out via
`..` components. -/
def staysInTemp (name : String) : Bool :=
  match osPathJoinTemp name with
  | .temp _ => true
  | .outside _ => false

/-- Stand-in for the unique name `tempfile.TemporaryDirectory` picks for this
run; only used to render argument strings for the trace. -/
def tempDirName : String := "/tmp/audio_extract_run"

/-- Render a `PathLoc` as the path string handed to ffmpeg. -/
def PathLoc.render : PathLoc → String
  | .temp rel => tempDirName ++ "/" ++ rel
  | .outside abs => abs

/-- The filesystem: an association list from paths to contents; the most
recent write of a path shadows earlier entries. -/
abbrev FS := List (PathLoc × Bytes)

/-- Read the contents at a path (first matching entry), as `open(p,"rb")`. -/
def FS.read (fs : FS) (p : PathLoc) : Option Bytes :=
  (fs.find? (fun e => decide (e.1 = p))).map (·.2)

/-- Write contents at a path, as `open(p,"wb").write(b)` (overwrites). -/
def FS.write (fs : FS) (p : PathLoc) (b : Bytes) : FS :=
  (p, b) :: fs

/-- Whether a path survives the deletion of the temporary directory: exactly
the paths outside it. -/
def PathLoc.survivesCleanup : PathLoc → Bool
  | .temp _ => false
  | .outside _ => true

/-- `TemporaryDirectory.__exit__`: recursively delete the temporary directory
and everything inside it, leaving every path outside it untouched. -/
def FS.cleanupTemp (fs : FS) : FS :=
  fs.filter (fun e => e.1.survivesCleanup)

/-- Observable events of one call: an ffmpeg subprocess invocation with its
full argument list, or an `st.error` log line. -/
inductive Event where
  | invoke (args : List String)
  | logError (msg : String)
deriving DecidableEq, Repr

/-- Python exceptions that can escape a function in the embedded fragment. -/
inductive Exn where
  | calledProcessError (stderr : String)
  | fileNotFoundError
  | ioError
deriving DecidableEq, Repr

/-- The external world: whether the ffmpeg binary resolves on `PATH`, what the
two ffmpeg command shapes produce from the bytes found at their input path
(`Except.error` is a nonzero exit with the given stderr text), and whether the
orchestrator's own file write / file read succeed. -/
structure Env where
  ffmpegOnPath : Bool
  runExtract : Option Bytes → Except String Bytes
  runMp3 : Option Bytes → Except String Bytes
  writeOk : Bool
  readOk : Bool

/-- Argument list of the extraction invocation (app.py lines 19-23):
`ffmpeg -y -i <video_path> -vn -acodec pcm_s16le <output_wav_path>`. -/
def extractionArgv (video_path output_wav_path : String) : List String :=
  ["ffmpeg", "-y", "-i", video_path, "-vn", "-acodec", "pcm_s16le", output_wav_path]

/-- Argument list of the mp3 conversion invocation (app.py lines 36-41):
`ffmpeg -y -i <input_wav_path> -acodec libmp3lame -q:a 2 <output_mp3_path>`. -/
def mp3Argv (input_wav_path output_mp3_path : String) : List String :=
  ["ffmpeg", "-y", "-i", input_wav_path, "-acodec", "libmp3lame", "-q:a", "2", output_mp3_path]

/-- `extract_audio_ffmpeg(video_path, output_wav_path)` (app.py lines 12-29).
If the binary is missing, `subprocess.run` raises `FileNotFoundError`: the
function logs via `st.error` and re-raises, with no invocation recorded.
Otherwise the process runs on the bytes at `video_path`; a nonzero exit
(`CalledProcessError`) is logged with its stderr text and re-raised; on
success the WAV bytes are written at `output_wav_path` (`-y` overwrites). -/
def extract_audio_ffmpeg (env : Env) (fs : FS) (video_path output_wav_path : PathLoc) :
    Except Exn FS × List Event :=
  if env.ffmpegOnPath then
    match env.runExtract (fs.read video_path) with
    | .ok wav =>
        (.ok (fs.write output_wav_path wav),
         [.invoke (extractionArgv video_path.render output_wav_path.render)])
    | .error stderrText =>
        (.error (.calledProcessError stderrText),
         [.invoke (extractionArgv video_path.render output_wav_path.render),
          .logError ("FFmpeg extraction failed! Output: " ++ stderrText)])
  else
    (.error .fileNotFoundError,
     [.logError "FFmpeg not found. Please ensure it is installed and in your system PATH."])

/-- `convert_to_mp3_ffmpeg(input_wav_path, output_mp3_path)` (app.py lines
31-44). Only `CalledProcessError` is caught-logged-re-raised there; a missing
binary raises `FileNotFoundError` straight through with no log line. -/
def convert_to_mp3_ffmpeg (env : Env) (fs : FS) (input_wav_path output_mp3_path : PathLoc) :
    Except Exn FS × List Event :=
  if env.ffmpegOnPath then
    match env.runMp3 (fs.read input_wav_path) with
    | .ok mp3 =>
        (.ok (fs.write output_mp3_path mp3),
         [.invoke (mp3Argv input_wav_path.render output_mp3_path.render)])
    | .error stderrText =>
        (.error (.calledProcessError stderrText),
         [.invoke (mp3Argv input_wav_path.render output_mp3_path.render),
          .logError ("FFmpeg MP3 conversion failed! Output: " ++ stderrText)])
  else
    (.error .fileNotFoundError, [])

/-- `temp_video_path = os.path.join(temp_dir, original_filename)` (line 55). -/
def temp_video_path (original_filename : String) : PathLoc :=
  osPathJoinTemp original_filename

/-- `temp_audio_wav = os.path.join(temp_dir, "temp_audio.wav")` (line 56). -/
def temp_audio_wav : PathLoc :=
  osPathJoinTemp "temp_audio.wav"

/-- `final_audio_path = os.path.join(temp_dir, f"extracted_audio.{output_format}")`
(line 57). -/
def final_audio_path (output_format : String) : PathLoc :=
  osPathJoinTemp ("extracted_audio." ++ output_format)

/-- Outcome of one call: the Python-level result (`Except.error` = an
exception escaped the call, `.ok none` = the function returned `None`,
`.ok (some b)` = it returned the audio bytes `b`), the event trace, and the
filesystem after the call. -/
structure RunOutcome where
  result : Except Exn (Option Bytes)
  events : List Event
  fs : FS
deriving Repr

/-- The body of the `with tempfile.TemporaryDirectory()` block of
`extract_audio_for_download` (app.py lines 54-82), before the context manager
cleans up. The initial write of the video bytes (lines 60-61) happens outside
the `try`, so its failure escapes as an exception; failures of extraction,
conversion, and the final read happen inside `try ... except Exception` and
produce a returned `None`. -/
def pipelineBody (env : Env) (fs0 : FS) (video_bytes : Bytes)
    (original_filename output_format : String) : RunOutcome :=
  if env.writeOk then
    match extract_audio_ffmpeg env (fs0.write (temp_video_path original_filename) video_bytes)
        (temp_video_path original_filename) temp_audio_wav with
    | (.error _, evs) =>
        { result := .ok none, events := evs,
          fs := fs0.write (temp_video_path original_filename) video_bytes }
    | (.ok fs2, evs) =>
      if output_format = "mp3" then
        match convert_to_mp3_ffmpeg env fs2 temp_audio_wav (final_audio_path output_format) with
        | (.error _, evs2) => { result := .ok none, events := evs ++ evs2, fs := fs2 }
        | (.ok fs3, evs2) =>
          if env.readOk then
            match fs3.read (final_audio_path output_format) with
            | some b => { result := .ok (some b), events := evs ++ evs2, fs := fs3 }
            | none => { result := .ok none, events := evs ++ evs2, fs := fs3 }
          else { result := .ok none, events := evs ++ evs2, fs := fs3 }
      else
        -- `final_audio_path = temp_audio_wav` (line 72): the extracted WAV is final
        if env.readOk then
          match fs2.read temp_audio_wav with
          | some b => { result := .ok (some b), events := evs, fs := fs2 }
          | none => { result := .ok none, events := evs, fs := fs2 }
        else { result := .ok none, events := evs, fs := fs2 }
  else
    { result := .error .ioError, events := [], fs := fs0 }

/-- `extract_audio_for_download(video_bytes, original_filename, output_format)`
(app.py lines 48-82), minus the `@st.cache_data` decorator (modelled
separately as `st_cache_data_run`): run the body inside the
`TemporaryDirectory` context manager, whose `__exit__` deletes the directory
and its contents on every exit path, normal or exceptional. -/
def extract_audio_for_download (env : Env) (fs0 : FS) (video_bytes : Bytes)
    (original_filename output_format : String) : RunOutcome :=
  { result := (pipelineBody env fs0 video_bytes original_filename output_format).result
    events := (pipelineBody env fs0 video_bytes original_filename output_format).events
    fs := (pipelineBody env fs0 video_bytes original_filename output_format).fs.cleanupTemp }

/-- `@st.cache_data` hashes the argument tuple. -/
abbrev CacheKey := Bytes × String × String

/-- The memoization store of `@st.cache_data`: returned values (including a
returned `None`) by argument triple. -/
abbrev Cache := List (CacheKey × Option Bytes)

/-- Outcome of one call through the `@st.cache_data` wrapper. -/
structure CachedOutcome where
  result : Except Exn (Option Bytes)
  events : List Event
  fs : FS
  cache : Cache
deriving Repr

/-- The `@st.cache_data` wrapper (app.py line 48) around
`extract_audio_for_download`: on a hit for the key `(video_bytes,
original_filename, output_format)` the stored return value is replayed and the
function body never runs; on a miss the body runs, and its *returned* value —
audio bytes or `None` alike — is stored under the key; an exception escaping
the body stores nothing and propagates. -/
def st_cache_data_run (env : Env) (cache : Cache) (fs0 : FS) (video_bytes : Bytes)
    (original_filename output_format : String) : CachedOutcome :=
  match (cache.find? (fun e =>
      decide (e.1 = (video_bytes, original_filename, output_format)))).map (·.2) with
  | some v => { result := .ok v, events := [], fs := fs0, cache := cache }
  | none =>
    match (extract_audio_for_download env fs0 video_bytes original_filename
        output_format).result with
    | .ok v =>
        { result := .ok v
          events := (extract_audio_for_download env fs0 video_bytes original_filename
            output_format).events
          fs := (extract_audio_for_download env fs0 video_bytes original_filename output_format).fs
          cache := ((video_bytes, original_filename, output_format), v) :: cache }
    | .error e =>
        { result := .error e
          events := (extract_audio_for_download env fs0 video_bytes original_filename
            output_format).events
          fs := (extract_audio_for_download env fs0 video_bytes original_filename output_format).fs
          cache := cache }

/-- The spec's VBR quality scale, steps ordered by fidelity: index 0 is the
highest-fidelity step of the 0-9 scale, index 1 the second-highest, and so
on. -/
def vbrStepsByFidelity : List Nat := [0, 1, 2, 3, 4, 5, 6, 7, 8, 9]

/-- The `-q:a` value the code passes (element 7 of the conversion argv). -/
def mp3QualityArgOf (argv : List String) : String := argv.getD 7 ""

/-! ## Concrete environments used by witnesses and counterexamples -/

/-- A fully healthy world: ffmpeg resolves, extraction yields the WAV bytes
`[1, 2]`, conversion yields the MP3 bytes `[3]`, writes and reads succeed. -/
def okEnv : Env :=
  { ffmpegOnPath := true
    runExtract := fun _ => .ok [1, 2]
    runMp3 := fun _ => .ok [3]
    writeOk := true
    readOk := true }

/-- A world where the input is not a decodable media container: the extraction
invocation exits nonzero with a diagnostic on stderr. -/
def extractFailEnv : Env := { okEnv with runExtract := fun _ => .error "bad container" }

/-- A world where extraction succeeds but the MP3 conversion invocation exits
nonzero with a diagnostic on stderr. -/
def mp3FailEnv : Env := { okEnv with runMp3 := fun _ => .error "lame failed" }

/-- A world where the ffmpeg binary is not on `PATH`. -/
def noFfmpegEnv : Env := { okEnv with ffmpegOnPath := false }

/-- A world where persisting the uploaded bytes to the workspace fails. -/
def writeFailEnv : Env := { okEnv with writeOk := false }

/-- A world where extraction succeeds but reading the final artifact back into
memory fails. -/
def readFailEnv : Env := { okEnv with readOk := false }

/-! ## Filesystem lemmas -/

/-- Reading a path just written returns the written bytes. -/
theorem FS.read_write_self (fs : FS) (p : PathLoc) (b : Bytes) :
    (fs.write p b).read p = some b := by
  unfold FS.write FS.read
  rw [List.find?_cons_of_pos _ (by simp)]
  rfl

/-- Reading past an entry with a different key. -/
theorem FS.read_cons_ne (fs : FS) (k p : PathLoc) (b : Bytes) (h : k ≠ p) :
    FS.read ((k, b) :: fs) p = fs.read p := by
  unfold FS.read
  rw [List.find?_cons_of_neg _ (by simp [h])]

/-- Deleting the temporary directory drops the entries inside it. -/
theorem FS.cleanupTemp_cons_temp (fs : FS) (s : String) (b : Bytes) :
    FS.cleanupTemp ((PathLoc.temp s, b) :: fs) = FS.cleanupTemp fs := by
  simp [FS.cleanupTemp, List.filter_cons, PathLoc.survivesCleanup]

/-- Deleting the temporary directory keeps the entries outside it. -/
theorem FS.cleanupTemp_cons_outside (fs : FS) (a : String) (b : Bytes) :
    FS.cleanupTemp ((PathLoc.outside a, b) :: fs) =
      (PathLoc.outside a, b) :: FS.cleanupTemp fs := by
  simp [FS.cleanupTemp, List.filter_cons, PathLoc.survivesCleanup]

/-- After the temporary directory is deleted, nothing inside it is readable. -/
theorem FS.cleanupTemp_read_temp (fs : FS) (r : String) :
    (FS.cleanupTemp fs).read (.temp r) = none := by
  induction fs with
  | nil => rfl
  | cons e fs ih =>
    obtain ⟨k, b⟩ := e
    cases k with
    | temp s => rw [FS.cleanupTemp_cons_temp]; exact ih
    | outside a =>
      rw [FS.cleanupTemp_cons_outside, FS.read_cons_ne _ _ _ _ (by simp)]
      exact ih

/-- Deleting the temporary directory leaves paths outside it unchanged. -/
theorem FS.cleanupTemp_read_outside (fs : FS) (a : String) :
    (FS.cleanupTemp fs).read (.outside a) = fs.read (.outside a) := by
  induction fs with
  | nil => rfl
  | cons e fs ih =>
    obtain ⟨k, b⟩ := e
    cases k with
    | temp s =>
      rw [FS.cleanupTemp_cons_temp, FS.read_cons_ne _ _ _ _ (by simp)]
      exact ih
    | outside x =>
      by_cases hx : x = a
      · subst hx
        rw [FS.cleanupTemp_cons_outside]
        exact (FS.read_write_self _ _ _).trans (FS.read_write_self fs _ b).symm
      · rw [FS.cleanupTemp_cons_outside, FS.read_cons_ne _ _ _ _ (by simp [hx]),
          FS.read_cons_ne _ _ _ _ (by simp [hx])]
        exact ih

/-! ## Path lemmas -/

/-- The fixed intermediate WAV path lies inside the temporary directory. -/
theorem temp_audio_wav_eq : temp_audio_wav = .temp "temp_audio.wav" := rfl

/-- The final artifact path for the mp3 target lies inside the temporary
directory. -/
theorem final_audio_path_mp3_eq : final_audio_path "mp3" = .temp "extracted_audio.mp3" := rfl

/-- For a caller-supplied filename that resolves inside the temporary
directory, the persisted source path is some path inside it. -/
theorem temp_video_path_of_staysInTemp (fn : String) (hfn : staysInTemp fn = true) :
    ∃ r, temp_video_path fn = .temp r := by
  unfold staysInTemp at hfn
  unfold temp_video_path
  cases h : osPathJoinTemp fn with
  | temp r => exact ⟨r, rfl⟩
  | outside a =>
    rw [h] at hfn
    cases hfn

/-! ## Evaluation lemmas for the two ffmpeg utilities -/

/-- Successful extraction: one invocation, the WAV written at the output path. -/
theorem extract_audio_ffmpeg_ok (env : Env) (fs : FS) (p q : PathLoc) (w : Bytes)
    (hff : env.ffmpegOnPath = true) (hx : env.runExtract (fs.read p) = .ok w) :
    extract_audio_ffmpeg env fs p q =
      (.ok (fs.write q w), [.invoke (extractionArgv p.render q.render)]) := by
  unfold extract_audio_ffmpeg
  rw [hff, hx]
  rfl

/-- Failed extraction: the nonzero exit is logged with its stderr text and the
`CalledProcessError` is re-raised. -/
theorem extract_audio_ffmpeg_err (env : Env) (fs : FS) (p q : PathLoc) (d : String)
    (hff : env.ffmpegOnPath = true) (hx : env.runExtract (fs.read p) = .error d) :
    extract_audio_ffmpeg env fs p q =
      (.error (.calledProcessError d),
       [.invoke (extractionArgv p.render q.render),
        .logError ("FFmpeg extraction failed! Output: " ++ d)]) := by
  unfold extract_audio_ffmpeg
  rw [hff, hx]
  rfl

/-- Missing binary at extraction: no invocation, a log line, and the
`FileNotFoundError` is re-raised. -/
theorem extract_audio_ffmpeg_noBin (env : Env) (fs : FS) (p q : PathLoc)
    (hff : env.ffmpegOnPath = false) :
    extract_audio_ffmpeg env fs p q =
      (.error .fileNotFoundError,
       [.logError "FFmpeg not found. Please ensure it is installed and in your system PATH."]) := by
  unfold extract_audio_ffmpeg
  rw [hff]
  rfl

/-- Successful conversion: one invocation, the MP3 written at the output path. -/
theorem convert_to_mp3_ffmpeg_ok (env : Env) (fs : FS) (p q : PathLoc) (m : Bytes)
    (hff : env.ffmpegOnPath = true) (hm : env.runMp3 (fs.read p) = .ok m) :
    convert_to_mp3_ffmpeg env fs p q =
      (.ok (fs.write q m), [.invoke (mp3Argv p.render q.render)]) := by
  unfold convert_to_mp3_ffmpeg
  rw [hff, hm]
  rfl

/-- Failed conversion: the nonzero exit is logged with its stderr text and the
`CalledProcessError` is re-raised. -/
theorem convert_to_mp3_ffmpeg_err (env : Env) (fs : FS) (p q : PathLoc) (d : String)
    (hff : env.ffmpegOnPath = true) (hm : env.runMp3 (fs.read p) = .error d) :
    convert_to_mp3_ffmpeg env fs p q =
      (.error (.calledProcessError d),
       [.invoke (mp3Argv p.render q.render),
        .logError ("FFmpeg MP3 conversion failed! Output: " ++ d)]) := by
  unfold convert_to_mp3_ffmpeg
  rw [hff, hm]
  rfl

/-! ## Evaluation lemmas for the pipeline body -/

/-- A failing source-bytes write escapes as an exception (it happens outside
the `try`), with no invocation and no log. -/
theorem pipelineBody_writeFail (env : Env) (fs0 : FS) (vb : Bytes) (fn fmt : String)
    (hw : env.writeOk = false) :
    pipelineBody env fs0 vb fn fmt = { result := .error .ioError, events := [], fs := fs0 } := by
  unfold pipelineBody
  rw [hw]
  rfl

/-- Missing ffmpeg binary: the `FileNotFoundError` raised by extraction is
caught by the orchestrator's `except Exception`, which returns `None`. -/
theorem pipelineBody_noBin (env : Env) (fs0 : FS) (vb : Bytes) (fn fmt : String)
    (hw : env.writeOk = true) (hff : env.ffmpegOnPath = false) :
    pipelineBody env fs0 vb fn fmt =
      { result := .ok none
        events := [.logError "FFmpeg not found. Please ensure it is installed and in your system PATH."]
        fs := fs0.write (temp_video_path fn) vb } := by
  unfold pipelineBody
  rw [hw, extract_audio_ffmpeg_noBin env _ _ _ hff]
  rfl

/-- Failed extraction: the `CalledProcessError` is logged at its origin and the
orchestrator returns `None`. -/
theorem pipelineBody_extractFail (env : Env) (fs0 : FS) (vb : Bytes) (fn fmt d : String)
    (hw : env.writeOk = true) (hff : env.ffmpegOnPath = true)
    (hx : env.runExtract (some vb) = .error d) :
    pipelineBody env fs0 vb fn fmt =
      { result := .ok none
        events := [.invoke (extractionArgv (temp_video_path fn).render temp_audio_wav.render),
                   .logError ("FFmpeg extraction failed! Output: " ++ d)]
        fs := fs0.write (temp_video_path fn) vb } := by
  unfold pipelineBody
  rw [hw, extract_audio_ffmpeg_err env _ _ _ d hff (by rw [FS.read_write_self]; exact hx)]
  rfl

/-- Successful mp3 run: two invocations in order, the final MP3 bytes read
back and returned. -/
theorem pipelineBody_mp3_ok (env : Env) (fs0 : FS) (vb w m : Bytes) (fn : String)
    (hw : env.writeOk = true) (hff : env.ffmpegOnPath = true)
    (hx : env.runExtract (some vb) = .ok w) (hm : env.runMp3 (some w) = .ok m)
    (hr : env.readOk = true) :
    pipelineBody env fs0 vb fn "mp3" =
      { result := .ok (some m)
        events := [.invoke (extractionArgv (temp_video_path fn).render temp_audio_wav.render),
                   .invoke (mp3Argv temp_audio_wav.render (final_audio_path "mp3").render)]
        fs := ((fs0.write (temp_video_path fn) vb).write temp_audio_wav w).write
          (final_audio_path "mp3") m } := by
  unfold pipelineBody
  rw [hw, extract_audio_ffmpeg_ok env _ _ _ w hff (by rw [FS.read_write_self]; exact hx)]
  simp only []
  rw [convert_to_mp3_ffmpeg_ok env _ _ _ m hff (by rw [FS.read_write_self]; exact hm)]
  rw [hr]
  rfl

/-- Failed mp3 conversion: the `CalledProcessError` is logged at its origin
and the orchestrator returns `None`. -/
theorem pipelineBody_mp3Fail (env : Env) (fs0 : FS) (vb w : Bytes) (fn d : String)
    (hw : env.writeOk = true) (hff : env.ffmpegOnPath = true)
    (hx : env.runExtract (some vb) = .ok w) (hm : env.runMp3 (some w) = .error d) :
    pipelineBody env fs0 vb fn "mp3" =
      { result := .ok none
        events := [.invoke (extractionArgv (temp_video_path fn).render temp_audio_wav.render),
                   .invoke (mp3Argv temp_audio_wav.render (final_audio_path "mp3").render),
                   .logError ("FFmpeg MP3 conversion failed! Output: " ++ d)]
        fs := (fs0.write (temp_video_path fn) vb).write temp_audio_wav w } := by
  unfold pipelineBody
  rw [hw, extract_audio_ffmpeg_ok env _ _ _ w hff (by rw [FS.read_write_self]; exact hx)]
  simp only []
  rw [convert_to_mp3_ffmpeg_err env _ _ _ d hff (by rw [FS.read_write_self]; exact hm)]
  rfl

/-- Successful non-mp3 run: one invocation, the intermediate WAV itself read
back and returned. -/
theorem pipelineBody_wav_ok (env : Env) (fs0 : FS) (vb w : Bytes) (fn fmt : String)
    (hfmt : ¬ fmt = "mp3")
    (hw : env.writeOk = true) (hff : env.ffmpegOnPath = true)
    (hx : env.runExtract (some vb) = .ok w) (hr : env.readOk = true) :
    pipelineBody env fs0 vb fn fmt =
      { result := .ok (some w)
        events := [.invoke (extractionArgv (temp_video_path fn).render temp_audio_wav.render)]
        fs := (fs0.write (temp_video_path fn) vb).write temp_audio_wav w } := by
  unfold pipelineBody
  rw [hw, extract_audio_ffmpeg_ok env _ _ _ w hff (by rw [FS.read_write_self]; exact hx)]
  simp only [if_neg hfmt, hr, FS.read_write_self]
  rfl

/-- Failed final read in a non-mp3 run: caught, returns `None`. -/
theorem pipelineBody_wav_readFail (env : Env) (fs0 : FS) (vb w : Bytes) (fn fmt : String)
    (hfmt : ¬ fmt = "mp3")
    (hw : env.writeOk = true) (hff : env.ffmpegOnPath = true)
    (hx : env.runExtract (some vb) = .ok w) (hr : env.readOk = false) :
    pipelineBody env fs0 vb fn fmt =
      { result := .ok none
        events := [.invoke (extractionArgv (temp_video_path fn).render temp_audio_wav.render)]
        fs := (fs0.write (temp_video_path fn) vb).write temp_audio_wav w } := by
  unfold pipelineBody
  rw [hw, extract_audio_ffmpeg_ok env _ _ _ w hff (by rw [FS.read_write_self]; exact hx)]
  simp only [if_neg hfmt, hr]
  rfl

/-! ## Inversion and frame lemmas -/

/-- Writing at one path does not change reads at a different path. -/
theorem FS.read_write_ne (fs : FS) (p q : PathLoc) (b : Bytes) (h : p ≠ q) :
    (fs.write p b).read q = fs.read q :=
  FS.read_cons_ne fs p q b h

/-- Writing inside the temporary directory does not change reads outside it. -/
theorem FS.read_write_temp (fs : FS) (s : String) (b : Bytes) (a : String) :
    (fs.write (.temp s) b).read (.outside a) = fs.read (.outside a) :=
  FS.read_write_ne fs _ _ b (by simp)

/-- A successful extraction call can only have written the WAV produced by the
toolkit at the requested output path. -/
theorem extract_audio_ffmpeg_ok_inv (env : Env) (fs : FS) (p q : PathLoc) (fs2 : FS)
    (evs : List Event) (h : extract_audio_ffmpeg env fs p q = (.ok fs2, evs)) :
    ∃ w, env.runExtract (fs.read p) = .ok w ∧ fs2 = fs.write q w := by
  cases hff : env.ffmpegOnPath
  case false =>
    rw [extract_audio_ffmpeg_noBin env fs p q hff] at h
    injection h with h1 h2
    injection h1
  case true =>
    cases hx : env.runExtract (fs.read p)
    case error d =>
      rw [extract_audio_ffmpeg_err env fs p q d hff hx] at h
      injection h with h1 h2
      injection h1
    case ok w =>
      rw [extract_audio_ffmpeg_ok env fs p q w hff hx] at h
      injection h with h1 h2
      injection h1 with h1
      exact ⟨w, rfl, h1.symm⟩

/-- A successful conversion call can only have written the MP3 produced by the
toolkit at the requested output path. -/
theorem convert_to_mp3_ffmpeg_ok_inv (env : Env) (fs : FS) (p q : PathLoc) (fs2 : FS)
    (evs : List Event) (h : convert_to_mp3_ffmpeg env fs p q = (.ok fs2, evs)) :
    ∃ m, env.runMp3 (fs.read p) = .ok m ∧ fs2 = fs.write q m := by
  cases hff : env.ffmpegOnPath
  case false =>
    unfold convert_to_mp3_ffmpeg at h
    rw [hff] at h
    injection h with h1 h2
    injection h1
  case true =>
    cases hm : env.runMp3 (fs.read p)
    case error d =>
      rw [convert_to_mp3_ffmpeg_err env fs p q d hff hm] at h
      injection h with h1 h2
      injection h1
    case ok m =>
      rw [convert_to_mp3_ffmpeg_ok env fs p q m hff hm] at h
      injection h with h1 h2
      injection h1 with h1
      exact ⟨m, rfl, h1.symm⟩

/-- Whenever the source write succeeds, the call returns normally: every later
failure is caught by `except Exception` and turned into a returned value. -/
theorem pipelineBody_ok_of_writeOk (env : Env) (fs0 : FS) (vb : Bytes) (fn fmt : String)
    (hw : env.writeOk = true) :
    ∃ v, (pipelineBody env fs0 vb fn fmt).result = .ok v := by
  unfold pipelineBody
  rw [hw]
  repeat' split
  all_goals first
  | exact ⟨_, rfl⟩
  | simp_all

/-- The only exception that escapes the call is a failure of the initial
source write. -/
theorem pipelineBody_error_inv (env : Env) (fs0 : FS) (vb : Bytes) (fn fmt : String)
    (e : Exn) (h : (pipelineBody env fs0 vb fn fmt).result = .error e) :
    env.writeOk = false ∧ e = .ioError := by
  cases hw : env.writeOk
  case true =>
    obtain ⟨v, hv⟩ := pipelineBody_ok_of_writeOk env fs0 vb fn fmt hw
    rw [hv] at h
    injection h
  case false =>
    rw [pipelineBody_writeFail env fs0 vb fn fmt hw] at h
    injection h with h1
    exact ⟨rfl, h1.symm⟩

/-- The body touches no path outside the temporary directory when the
caller-supplied filename resolves inside it. -/
theorem pipelineBody_read_outside (env : Env) (fs0 : FS) (vb : Bytes) (fn fmt : String)
    (hfn : staysInTemp fn = true) (a : String) :
    (pipelineBody env fs0 vb fn fmt).fs.read (.outside a) = fs0.read (.outside a) := by
  obtain ⟨rr, htvp⟩ := temp_video_path_of_staysInTemp fn hfn
  unfold pipelineBody
  cases hw : env.writeOk
  case false => rfl
  case true =>
    rw [if_pos rfl]
    split
    next e1 evs heq => simp only [htvp, FS.read_write_temp]
    next fs2 evs heq =>
      obtain ⟨w, hxw, rfl⟩ := extract_audio_ffmpeg_ok_inv _ _ _ _ _ _ heq
      split
      next hfmt =>
        subst hfmt
        split
        next e2 evs2 heq2 =>
          simp only [htvp, temp_audio_wav_eq, FS.read_write_temp]
        next fs3 evs2 heq2 =>
          obtain ⟨m, hmw, rfl⟩ := convert_to_mp3_ffmpeg_ok_inv _ _ _ _ _ _ heq2
          split
          · split <;>
              simp only [htvp, temp_audio_wav_eq, final_audio_path_mp3_eq, FS.read_write_temp]
          · simp only [htvp, temp_audio_wav_eq, final_audio_path_mp3_eq, FS.read_write_temp]
      next hfmt =>
        split
        · split <;> simp only [htvp, temp_audio_wav_eq, FS.read_write_temp]
        · simp only [htvp, temp_audio_wav_eq, FS.read_write_temp]

/-! ## Claim C1 -/

/-- Claim C1, counterexample: the entry point does not return a classified
error value. Two different failures — a failed extraction and a failed MP3
conversion — produce the *identical* unclassified return `None`; no
`PipelineError` classification or diagnostic text reaches the caller. -/
theorem C1_counterexample :
    (extract_audio_for_download extractFailEnv [] [0] "clip.mp4" "mp3").result = .ok none ∧
      (extract_audio_for_download mp3FailEnv [] [0] "clip.mp4" "mp3").result = .ok none ∧
      (extract_audio_for_download extractFailEnv [] [0] "clip.mp4" "mp3").result =
        (extract_audio_for_download mp3FailEnv [] [0] "clip.mp4" "mp3").result :=
  ⟨rfl, rfl, rfl⟩

/-- Claim C1, amended: every failure the entry point catches — a failed
extraction, a failed MP3 conversion, and a failed read of the final artifact —
is collapsed into the single unclassified return value `None`; where a
diagnostic exists it survives only as an `st.error` log event emitted at the
failure's origin, not in the returned value. -/
theorem C1_amended (env : Env) (fs0 : FS) (vb w : Bytes) (fn fmt d d2 : String) :
    (env.writeOk = true → env.ffmpegOnPath = true → env.runExtract (some vb) = .error d →
      (extract_audio_for_download env fs0 vb fn fmt).result = .ok none ∧
        Event.logError ("FFmpeg extraction failed! Output: " ++ d) ∈
          (extract_audio_for_download env fs0 vb fn fmt).events) ∧
      (env.writeOk = true → env.ffmpegOnPath = true → env.runExtract (some vb) = .ok w →
        fmt = "mp3" → env.runMp3 (some w) = .error d2 →
        (extract_audio_for_download env fs0 vb fn fmt).result = .ok none ∧
          Event.logError ("FFmpeg MP3 conversion failed! Output: " ++ d2) ∈
            (extract_audio_for_download env fs0 vb fn fmt).events) ∧
      (env.writeOk = true → env.ffmpegOnPath = true → env.runExtract (some vb) = .ok w →
        fmt = "wav" → env.readOk = false →
        (extract_audio_for_download env fs0 vb fn fmt).result = .ok none) := by
  refine ⟨?_, ?_, ?_⟩
  · intro hw hff hx
    have hbody := pipelineBody_extractFail env fs0 vb fn fmt d hw hff hx
    constructor
    · show (pipelineBody env fs0 vb fn fmt).result = .ok none
      rw [hbody]
    · show Event.logError ("FFmpeg extraction failed! Output: " ++ d) ∈
        (pipelineBody env fs0 vb fn fmt).events
      rw [hbody]
      simp
  · intro hw hff hx hfmt hm
    subst hfmt
    have hbody := pipelineBody_mp3Fail env fs0 vb w fn d2 hw hff hx hm
    constructor
    · show (pipelineBody env fs0 vb fn "mp3").result = .ok none
      rw [hbody]
    · show Event.logError ("FFmpeg MP3 conversion failed! Output: " ++ d2) ∈
        (pipelineBody env fs0 vb fn "mp3").events
      rw [hbody]
      simp
  · intro hw hff hx hfmt hr
    subst hfmt
    show (pipelineBody env fs0 vb fn "wav").result = .ok none
    rw [pipelineBody_wav_readFail env fs0 vb w fn "wav" (by decide) hw hff hx hr]

/-- Claim C1, witness: the amended statement at concrete failing runs, one for
each caught failure kind — extraction, MP3 conversion, and final read. -/
theorem C1_witness :
    ((extract_audio_for_download extractFailEnv [] [0] "clip.mp4" "wav").result = .ok none ∧
      Event.logError ("FFmpeg extraction failed! Output: " ++ "bad container") ∈
        (extract_audio_for_download extractFailEnv [] [0] "clip.mp4" "wav").events) ∧
      ((extract_audio_for_download mp3FailEnv [] [0] "clip.mp4" "mp3").result = .ok none ∧
        Event.logError ("FFmpeg MP3 conversion failed! Output: " ++ "lame failed") ∈
          (extract_audio_for_download mp3FailEnv [] [0] "clip.mp4" "mp3").events) ∧
      (extract_audio_for_download readFailEnv [] [0] "clip.mp4" "wav").result = .ok none :=
  ⟨(C1_amended extractFailEnv [] [0] [1, 2] "clip.mp4" "wav" "bad container" "x").1
      rfl rfl rfl,
   (C1_amended mp3FailEnv [] [0] [1, 2] "clip.mp4" "mp3" "x" "lame failed").2.1
      rfl rfl rfl rfl rfl,
   (C1_amended readFailEnv [] [0] [1, 2] "clip.mp4" "wav" "x" "y").2.2
      rfl rfl rfl rfl rfl⟩

/-! ## Claim C2 -/

/-- Claim C2, counterexample: on a byte buffer that is not a valid media
container the entry point returns the unclassified `None`, a value identical
to the one returned for an MP3-conversion failure — not a classified
`Err(ExtractionFailed)`. -/
theorem C2_counterexample :
    (extract_audio_for_download extractFailEnv [] [5] "movie.mkv" "mp3").result = .ok none ∧
      (extract_audio_for_download extractFailEnv [] [5] "movie.mkv" "mp3").result =
        (extract_audio_for_download mp3FailEnv [] [5] "movie.mkv" "mp3").result :=
  ⟨rfl, rfl⟩

/-- Claim C2, amended: when the input buffer is not a valid media container
(the extraction invocation exits nonzero), the entry point returns `None` —
a failure value, never audio bytes. -/
theorem C2_amended (env : Env) (fs0 : FS) (vb : Bytes) (fn fmt d : String)
    (hw : env.writeOk = true) (hff : env.ffmpegOnPath = true)
    (hx : env.runExtract (some vb) = .error d) :
    (extract_audio_for_download env fs0 vb fn fmt).result = .ok none ∧
      ∀ b : Bytes, (extract_audio_for_download env fs0 vb fn fmt).result ≠ .ok (some b) := by
  have hbody := pipelineBody_extractFail env fs0 vb fn fmt d hw hff hx
  have h1 : (extract_audio_for_download env fs0 vb fn fmt).result = .ok none := by
    show (pipelineBody env fs0 vb fn fmt).result = .ok none
    rw [hbody]
  refine ⟨h1, fun b hb => ?_⟩
  rw [h1] at hb
  simp at hb

/-- Claim C2, witness: the amended statement at a concrete invalid input. -/
theorem C2_witness :
    (extract_audio_for_download extractFailEnv [] [5] "vid.avi" "mp3").result = .ok none ∧
      (extract_audio_for_download extractFailEnv [] [5] "vid.avi" "mp3").result ≠
        .ok (some [1, 2]) :=
  ⟨(C2_amended extractFailEnv [] [5] "vid.avi" "mp3" "bad container" rfl rfl rfl).1,
   (C2_amended extractFailEnv [] [5] "vid.avi" "mp3" "bad container" rfl rfl rfl).2 [1, 2]⟩

/-! ## Claim C3 -/

/-- Claim C3, counterexample: a caller-supplied filename whose joined path
escapes the workspace defeats the cleanup guarantee. With the absolute
filename `/evil.mp4`, `os.path.join(temp_dir, original_filename)` ignores
`temp_dir` entirely; with the relative filename `../evil.mp4`, the joined
path resolves to the temporary directory's parent when opened. In both cases
a run that starts from an empty filesystem succeeds and leaves the file it
created outside the workspace on the filesystem after the call. -/
theorem C3_counterexample :
    (extract_audio_for_download okEnv [] [7] "/evil.mp4" "mp3").result = .ok (some [3]) ∧
      (extract_audio_for_download okEnv [] [7] "/evil.mp4" "mp3").fs.read
        (.outside "/evil.mp4") = some [7] ∧
      (extract_audio_for_download okEnv [] [7] "../evil.mp4" "mp3").result = .ok (some [3]) ∧
      (extract_audio_for_download okEnv [] [7] "../evil.mp4" "mp3").fs.read
        (.outside "../evil.mp4") = some [7] :=
  ⟨rfl, rfl, rfl, rfl⟩

/-- Claim C3, amended: provided the caller-supplied filename resolves to a
location inside the workspace (it is neither an absolute path nor a `..`
traversal that climbs out of the temporary directory), every exit path of
every run deletes the workspace and everything in it — afterwards no path
inside the temporary directory is readable — and leaves every path outside
the workspace exactly as it was before the call. -/
theorem C3_amended (env : Env) (fs0 : FS) (vb : Bytes) (fn fmt : String)
    (hfn : staysInTemp fn = true) :
    (∀ r, (extract_audio_for_download env fs0 vb fn fmt).fs.read (.temp r) = none) ∧
      (∀ a, (extract_audio_for_download env fs0 vb fn fmt).fs.read (.outside a) =
        fs0.read (.outside a)) := by
  constructor
  · intro r
    exact FS.cleanupTemp_read_temp _ r
  · intro a
    exact (FS.cleanupTemp_read_outside _ a).trans
      (pipelineBody_read_outside env fs0 vb fn fmt hfn a)

/-- Claim C3, witness: the amended statement at a concrete run over a
filesystem that already holds an unrelated outside file. -/
theorem C3_witness :
    (extract_audio_for_download okEnv [(PathLoc.outside "/keep", [1])] [7] "clip.mp4"
      "mp3").fs.read (.temp "temp_audio.wav") = none ∧
      (extract_audio_for_download okEnv [(PathLoc.outside "/keep", [1])] [7] "clip.mp4"
        "mp3").fs.read (.outside "/keep") =
        FS.read [(PathLoc.outside "/keep", [1])] (.outside "/keep") :=
  ⟨(C3_amended okEnv [(PathLoc.outside "/keep", [1])] [7] "clip.mp4" "mp3" rfl).1
      "temp_audio.wav",
   (C3_amended okEnv [(PathLoc.outside "/keep", [1])] [7] "clip.mp4" "mp3" rfl).2 "/keep"⟩

/-! ## Claim C4 -/

/-- Claim C4, counterexample: after a transient toolkit failure (ffmpeg
missing), the failed run's `None` result IS persisted under its cache key by
`@st.cache_data`; a later identical request — even once the toolkit is
repaired — is served the cached `None` with no pipeline invocation at all. -/
theorem C4_counterexample :
    (st_cache_data_run noFfmpegEnv [] [] [9] "v.mp4" "mp3").cache =
      [(([9], "v.mp4", "mp3"), none)] ∧
      (st_cache_data_run okEnv [(([9], "v.mp4", "mp3"), none)] [] [9] "v.mp4" "mp3").result =
        .ok none ∧
      (st_cache_data_run okEnv [(([9], "v.mp4", "mp3"), none)] [] [9] "v.mp4" "mp3").events =
        [] :=
  ⟨rfl, rfl, rfl⟩

/-- Claim C4, amended: on a cache miss, `@st.cache_data` persists whatever
value the function *returns* under the key — successful audio bytes and the
`None` of a caught failure alike; only a run that ends in an uncaught
exception (a failed source write) stores nothing. -/
theorem C4_amended (env : Env) (cache0 : Cache) (fs0 : FS) (vb : Bytes) (fn fmt : String)
    (hmiss : cache0.find? (fun e => decide (e.1 = (vb, fn, fmt))) = none) :
    (∀ v, (extract_audio_for_download env fs0 vb fn fmt).result = .ok v →
      (st_cache_data_run env cache0 fs0 vb fn fmt).cache = ((vb, fn, fmt), v) :: cache0) ∧
      (∀ e, (extract_audio_for_download env fs0 vb fn fmt).result = .error e →
        (st_cache_data_run env cache0 fs0 vb fn fmt).cache = cache0) := by
  constructor
  · intro v h
    unfold st_cache_data_run
    rw [hmiss, h]
    rfl
  · intro e h
    unfold st_cache_data_run
    rw [hmiss, h]
    rfl

/-- Claim C4, witness: the amended statement at a concrete failing run whose
returned `None` lands in the cache. -/
theorem C4_witness :
    (st_cache_data_run noFfmpegEnv [] [] [9] "vid.mp4" "mp3").cache =
      (([9], "vid.mp4", "mp3"), (none : Option Bytes)) :: [] :=
  (C4_amended noFfmpegEnv [] [] [9] "vid.mp4" "mp3" rfl).1 none rfl

/-! ## Claim C5 -/

/-- Claim C5, counterexample: the conversion passes `-q:a 2`, but the
second-highest step of the 0-9 fidelity scale (0 = highest fidelity) is 1,
and `"2" ≠ "1"`. -/
theorem C5_counterexample :
    mp3QualityArgOf (mp3Argv "in.wav" "out.mp3") = "2" ∧
      toString (vbrStepsByFidelity.getD 1 0) = "1" ∧
      mp3QualityArgOf (mp3Argv "in.wav" "out.mp3") ≠ toString (vbrStepsByFidelity.getD 1 0) :=
  ⟨rfl, rfl, by decide⟩

/-- Claim C5, amended: for the compressed target the encoder re-encodes the
intermediate WAV with the VBR profile `-q:a 2`, the *third*-highest step of
the 0-9 quality scale on which 0 is highest fidelity; a successful mp3 run
indeed issues that invocation. -/
theorem C5_amended :
    Event.invoke (mp3Argv (PathLoc.render (.temp "temp_audio.wav"))
        (PathLoc.render (.temp "extracted_audio.mp3"))) ∈
      (extract_audio_for_download okEnv [] [4] "song.mp4" "mp3").events ∧
      mp3QualityArgOf (mp3Argv "in.wav" "out.mp3") = toString (vbrStepsByFidelity.getD 2 0) :=
  ⟨by decide, rfl⟩

/-! ## Claim C6 -/

/-- Claim C6: during a successful mp3 run the toolkit is invoked exactly
twice, first for extraction with the argument list
`-y -i <video> -vn -acodec pcm_s16le <wav>` and then for compression with
`-y -i <wav> -acodec libmp3lame -q:a 2 <out>`, in exactly that argument
order. -/
theorem C6_toolkit_argv (env : Env) (fs0 : FS) (vb w m : Bytes) (fn : String)
    (hw : env.writeOk = true) (hff : env.ffmpegOnPath = true)
    (hx : env.runExtract (some vb) = .ok w) (hm : env.runMp3 (some w) = .ok m)
    (hr : env.readOk = true) :
    (extract_audio_for_download env fs0 vb fn "mp3").events =
      [Event.invoke ["ffmpeg", "-y", "-i", (temp_video_path fn).render, "-vn", "-acodec",
          "pcm_s16le", temp_audio_wav.render],
       Event.invoke ["ffmpeg", "-y", "-i", temp_audio_wav.render, "-acodec", "libmp3lame",
          "-q:a", "2", (final_audio_path "mp3").render]] := by
  show (pipelineBody env fs0 vb fn "mp3").events = _
  rw [pipelineBody_mp3_ok env fs0 vb w m fn hw hff hx hm hr]
  rfl

/-- Claim C6, witness: the exact argument lists at a concrete successful run. -/
theorem C6_witness :
    (extract_audio_for_download okEnv [] [1] "clip.mp4" "mp3").events =
      [Event.invoke ["ffmpeg", "-y", "-i", (temp_video_path "clip.mp4").render, "-vn",
          "-acodec", "pcm_s16le", temp_audio_wav.render],
       Event.invoke ["ffmpeg", "-y", "-i", temp_audio_wav.render, "-acodec", "libmp3lame",
          "-q:a", "2", (final_audio_path "mp3").render]] :=
  C6_toolkit_argv okEnv [] [1] [1, 2] [3] "clip.mp4" rfl rfl rfl rfl rfl

/-! ## Claim C7 -/

/-- Claim C7: for the lossless target the encoding stage is an identity no-op:
a successful wav run performs exactly one toolkit invocation (the extraction)
and returns to the caller the very bytes the extraction wrote into the
intermediate WAV artifact. -/
theorem C7_wav_identity (env : Env) (fs0 : FS) (vb w : Bytes) (fn : String)
    (hw : env.writeOk = true) (hff : env.ffmpegOnPath = true)
    (hx : env.runExtract (some vb) = .ok w) (hr : env.readOk = true) :
    (extract_audio_for_download env fs0 vb fn "wav").result = .ok (some w) ∧
      (extract_audio_for_download env fs0 vb fn "wav").events =
        [Event.invoke (extractionArgv (temp_video_path fn).render temp_audio_wav.render)] := by
  have hbody := pipelineBody_wav_ok env fs0 vb w fn "wav" (by decide) hw hff hx hr
  constructor
  · show (pipelineBody env fs0 vb fn "wav").result = .ok (some w)
    rw [hbody]
  · show (pipelineBody env fs0 vb fn "wav").events = _
    rw [hbody]

/-- Claim C7, witness: the identity no-op at a concrete successful wav run. -/
theorem C7_witness :
    (extract_audio_for_download okEnv [] [6] "movie.mov" "wav").result = .ok (some [1, 2]) ∧
      (extract_audio_for_download okEnv [] [6] "movie.mov" "wav").events =
        [Event.invoke (extractionArgv (temp_video_path "movie.mov").render
          temp_audio_wav.render)] :=
  C7_wav_identity okEnv [] [6] [1, 2] "movie.mov" rfl rfl rfl rfl

/-! ## Cache evaluation lemmas -/

/-- A cache hit replays the stored value without running the body. -/
theorem st_cache_data_run_hit (env : Env) (cache : Cache) (fs0 : FS) (vb : Bytes)
    (fn fmt : String) (v : Option Bytes)
    (h : (cache.find? (fun e => decide (e.1 = (vb, fn, fmt)))).map (·.2) = some v) :
    st_cache_data_run env cache fs0 vb fn fmt =
      { result := .ok v, events := [], fs := fs0, cache := cache } := by
  unfold st_cache_data_run
  rw [h]

/-- A cache miss whose body returns stores the returned value. -/
theorem st_cache_data_run_miss_ok (env : Env) (cache : Cache) (fs0 : FS) (vb : Bytes)
    (fn fmt : String) (v : Option Bytes)
    (h : (cache.find? (fun e => decide (e.1 = (vb, fn, fmt)))).map (·.2) = none)
    (hres : (extract_audio_for_download env fs0 vb fn fmt).result = .ok v) :
    st_cache_data_run env cache fs0 vb fn fmt =
      { result := .ok v
        events := (extract_audio_for_download env fs0 vb fn fmt).events
        fs := (extract_audio_for_download env fs0 vb fn fmt).fs
        cache := ((vb, fn, fmt), v) :: cache } := by
  unfold st_cache_data_run
  rw [h, hres]

/-- A cache miss whose body raises stores nothing. -/
theorem st_cache_data_run_miss_err (env : Env) (cache : Cache) (fs0 : FS) (vb : Bytes)
    (fn fmt : String) (e : Exn)
    (h : (cache.find? (fun e => decide (e.1 = (vb, fn, fmt)))).map (·.2) = none)
    (hres : (extract_audio_for_download env fs0 vb fn fmt).result = .error e) :
    st_cache_data_run env cache fs0 vb fn fmt =
      { result := .error e
        events := (extract_audio_for_download env fs0 vb fn fmt).events
        fs := (extract_audio_for_download env fs0 vb fn fmt).fs
        cache := cache } := by
  unfold st_cache_data_run
  rw [h, hres]

/-! ## Claim C8 -/

/-- Claim C8: two successive calls through the `@st.cache_data` wrapper with
an identical `(bytes, filename, format)` triple are idempotent — the second
call returns the same result as the first and performs no toolkit invocation
(its event trace is empty): a returned first result is replayed from the
cache keyed on the triple, and the only non-returned case (a failed source
write) deterministically re-raises before any invocation. -/
theorem C8_idempotent (env : Env) (cache0 : Cache) (fs0 : FS) (vb : Bytes) (fn fmt : String) :
    (st_cache_data_run env (st_cache_data_run env cache0 fs0 vb fn fmt).cache
        (st_cache_data_run env cache0 fs0 vb fn fmt).fs vb fn fmt).result =
      (st_cache_data_run env cache0 fs0 vb fn fmt).result ∧
      (st_cache_data_run env (st_cache_data_run env cache0 fs0 vb fn fmt).cache
        (st_cache_data_run env cache0 fs0 vb fn fmt).fs vb fn fmt).events = [] := by
  rcases hlook : (cache0.find? (fun e => decide (e.1 = (vb, fn, fmt)))).map (·.2) with _ | v
  · rcases hres : (extract_audio_for_download env fs0 vb fn fmt).result with e | v2
    · have h1 := st_cache_data_run_miss_err env cache0 fs0 vb fn fmt e hlook hres
      obtain ⟨hwf, rfl⟩ := pipelineBody_error_inv env fs0 vb fn fmt e hres
      rw [h1]
      show (st_cache_data_run env cache0 (extract_audio_for_download env fs0 vb fn fmt).fs
          vb fn fmt).result = .error .ioError ∧
        (st_cache_data_run env cache0 (extract_audio_for_download env fs0 vb fn fmt).fs
          vb fn fmt).events = []
      have hres2 : (extract_audio_for_download env
          (extract_audio_for_download env fs0 vb fn fmt).fs vb fn fmt).result =
          .error .ioError := by
        show (pipelineBody env (extract_audio_for_download env fs0 vb fn fmt).fs
          vb fn fmt).result = _
        rw [pipelineBody_writeFail env _ vb fn fmt hwf]
      have h2 := st_cache_data_run_miss_err env cache0
        (extract_audio_for_download env fs0 vb fn fmt).fs vb fn fmt .ioError hlook hres2
      rw [h2]
      refine ⟨rfl, ?_⟩
      show (pipelineBody env (extract_audio_for_download env fs0 vb fn fmt).fs
        vb fn fmt).events = []
      rw [pipelineBody_writeFail env _ vb fn fmt hwf]
    · have h1 := st_cache_data_run_miss_ok env cache0 fs0 vb fn fmt v2 hlook hres
      rw [h1]
      show (st_cache_data_run env (((vb, fn, fmt), v2) :: cache0)
          (extract_audio_for_download env fs0 vb fn fmt).fs vb fn fmt).result = .ok v2 ∧
        (st_cache_data_run env (((vb, fn, fmt), v2) :: cache0)
          (extract_audio_for_download env fs0 vb fn fmt).fs vb fn fmt).events = []
      have hlook2 : (((((vb, fn, fmt), v2) :: cache0).find?
          (fun e => decide (e.1 = (vb, fn, fmt)))).map (·.2)) = some v2 := by
        rw [List.find?_cons_of_pos _ (by simp)]
        rfl
      rw [st_cache_data_run_hit env _ _ vb fn fmt v2 hlook2]
      exact ⟨rfl, rfl⟩
  · have h1 := st_cache_data_run_hit env cache0 fs0 vb fn fmt v hlook
    rw [h1]
    show (st_cache_data_run env cache0 fs0 vb fn fmt).result = .ok v ∧
      (st_cache_data_run env cache0 fs0 vb fn fmt).events = []
    rw [h1]
    exact ⟨rfl, rfl⟩

/-! ## Claim C9 -/

/-- Claim C9: the orchestrator does not separate the persisted source path
from its artifact paths — the caller-supplied filename `temp_audio.wav` makes
the source path equal the fixed intermediate WAV path, and
`extracted_audio.mp3` with target format mp3 makes it equal the final
artifact path; in the first case the extraction invocation (which carries the
`-y` overwrite flag) receives the same path as input and output, clobbering
its own input. -/
theorem C9_source_artifact_collision :
    temp_video_path "temp_audio.wav" = temp_audio_wav ∧
      temp_video_path "extracted_audio.mp3" = final_audio_path "mp3" ∧
      (extract_audio_for_download okEnv [] [7] "temp_audio.wav" "mp3").events.getD 0
          (Event.logError "") =
        Event.invoke (extractionArgv temp_audio_wav.render temp_audio_wav.render) ∧
      "-y" ∈ extractionArgv temp_audio_wav.render temp_audio_wav.render :=
  ⟨rfl, rfl, rfl, by decide⟩

/-! ## Claim C10 -/

/-- Claim C10: the no-exception contract is asymmetric. A failure of the
initial source write (which happens outside the `try`) escapes the entry
point as an exception, while a missing toolkit, a failed extraction, a failed
MP3 conversion, and a failed final read are all caught and converted into the
returned failure value `None`. -/
theorem C10_exception_asymmetry (env : Env) (fs0 : FS) (vb w : Bytes) (fn fmt d d2 : String) :
    (env.writeOk = false →
      (extract_audio_for_download env fs0 vb fn fmt).result = .error .ioError) ∧
      (env.writeOk = true → env.ffmpegOnPath = false →
        (extract_audio_for_download env fs0 vb fn fmt).result = .ok none) ∧
      (env.writeOk = true → env.ffmpegOnPath = true → env.runExtract (some vb) = .error d →
        (extract_audio_for_download env fs0 vb fn fmt).result = .ok none) ∧
      (env.writeOk = true → env.ffmpegOnPath = true → env.runExtract (some vb) = .ok w →
        fmt = "mp3" → env.runMp3 (some w) = .error d2 →
        (extract_audio_for_download env fs0 vb fn fmt).result = .ok none) ∧
      (env.writeOk = true → env.ffmpegOnPath = true → env.runExtract (some vb) = .ok w →
        fmt = "wav" → env.readOk = false →
        (extract_audio_for_download env fs0 vb fn fmt).result = .ok none) := by
  refine ⟨?_, ?_, ?_, ?_, ?_⟩
  · intro hw
    show (pipelineBody env fs0 vb fn fmt).result = _
    rw [pipelineBody_writeFail env fs0 vb fn fmt hw]
  · intro hw hff
    show (pipelineBody env fs0 vb fn fmt).result = _
    rw [pipelineBody_noBin env fs0 vb fn fmt hw hff]
  · intro hw hff hx
    show (pipelineBody env fs0 vb fn fmt).result = _
    rw [pipelineBody_extractFail env fs0 vb fn fmt d hw hff hx]
  · intro hw hff hx hfmt hm
    subst hfmt
    show (pipelineBody env fs0 vb fn "mp3").result = _
    rw [pipelineBody_mp3Fail env fs0 vb w fn d2 hw hff hx hm]
  · intro hw hff hx hfmt hr
    subst hfmt
    show (pipelineBody env fs0 vb fn "wav").result = _
    rw [pipelineBody_wav_readFail env fs0 vb w fn "wav" (by decide) hw hff hx hr]

/-- Claim C10, witness: at concrete runs, a failed source write escapes as an
exception while a missing toolkit yields the returned `None`. -/
theorem C10_witness :
    (extract_audio_for_download writeFailEnv [] [1] "a.mp4" "mp3").result =
      .error .ioError ∧
      (extract_audio_for_download noFfmpegEnv [] [1] "a.mp4" "mp3").result = .ok none :=
  ⟨(C10_exception_asymmetry writeFailEnv [] [1] [1, 2] "a.mp4" "mp3" "d" "e").1 rfl,
   (C10_exception_asymmetry noFfmpegEnv [] [1] [1, 2] "a.mp4" "mp3" "d" "e").2.1 rfl rfl⟩
